import Mathlib

/-!
Verification development for the static-file HTTP server `server.py`.

The script configures the standard-library HTTP server: it subclasses
`SimpleHTTPRequestHandler` to inject three cross-origin headers in
`end_headers`, changes the working directory to the directory containing
the script, binds a `TCPServer` on port 8000, prints a banner, and runs
`serve_forever` inside a `try/except KeyboardInterrupt` within a `with`
statement.

Definitions below are translated from `server.py`; the parts of the
behaviour supplied by the Python standard library (the static-file
responder, the header buffer flush, `serve_forever`, socket bind/close)
are modelled from the specification and carry doc comments saying so.
-/

namespace Server

/-- A response header: a name/value pair. -/
abbrev Header := String × String

/-- `PORT = 8000` (server.py line 11). -/
def PORT : Nat := 8000

/-- The host component `""` of the bind address (server.py line 23):
the empty host means all interfaces. -/
def bindHost : String := ""

/-- The three injected header pairs, in the order of the `send_header`
calls of server.py lines 16-18. -/
def corsHeaders : List Header :=
  [(("Access-Control-Allow-Origin"), ("*")),
   (("Cross-Origin-Embedder-Policy"), ("require-corp")),
   (("Cross-Origin-Opener-Policy"), ("same-origin"))]

/-- Modelled from the spec: `BaseHTTPRequestHandler.send_header`
(library code, not in src/) buffers one header by appending it to the
handler's header buffer. -/
def send_header (buf : List Header) (k v : String) : List Header :=
  buf ++ [(k, v)]

/-- Modelled from the spec: `super().end_headers()` (library code, not in
src/) finalizes the response: the header block written to the wire is the
buffered header list, in buffer order. -/
def base_end_headers (buf : List Header) : List Header := buf

/-- `MyHTTPRequestHandler.end_headers` (server.py lines 14-19): three
`send_header` calls, then `super().end_headers()`. -/
def end_headers (buf : List Header) : List Header :=
  base_end_headers
    (send_header
      (send_header
        (send_header buf ("Access-Control-Allow-Origin") ("*"))
        ("Cross-Origin-Embedder-Policy") ("require-corp"))
      ("Cross-Origin-Opener-Policy") ("same-origin"))

/-- An HTTP response: status code, header block, body bytes. -/
structure Response where
  status : Nat
  headers : List Header
  body : List Nat

/-- A filesystem: maps an absolute path to the file's bytes, or `none`
when no file exists at that path. -/
def FileSystem : Type := String → Option (List Nat)

/-- Modelled from the spec: the static-file responder inherited from
`SimpleHTTPRequestHandler` (library code, not in src/): it resolves the
request path against the server's root; "For any file F that exists
under the server's root, `GET /F` returns status 200 and byte-identical
contents to F on disk. For any path P with no corresponding file,
`GET /P` returns status 404." Returns status and body. -/
def serve_file (fs : FileSystem) (root relPath : String) : Nat × List Nat :=
  match fs (root ++ ("/") ++ relPath) with
  | some bytes => (200, bytes)
  | none => (404, [])

/-- A GET request handled by `MyHTTPRequestHandler`: the inherited
responder chooses status and body; the overridden `end_headers`
finalizes the header block from the library's buffered default headers
(`defaults`) for this response. -/
def handleGET (fs : FileSystem) (root : String) (defaults : List Header)
    (relPath : String) : Response :=
  { status := (serve_file fs root relPath).1,
    headers := end_headers defaults,
    body := (serve_file fs root relPath).2 }

/-- The listening socket; only whether it has been closed is modelled. -/
structure Socket where
  closed : Bool

/-- Modelled from the spec: `server_close`, the cleanup the `with`
statement runs on `TCPServer` (library code, not in src/): it closes the
listening socket. -/
def server_close (_ : Socket) : Socket := { closed := true }

/-- Modelled from the spec: constructing `socketserver.TCPServer(("", PORT), ...)`
binds the listening socket (library code, not in src/); "a failed bind is
a fatal, immediately surfaced condition": when the port is already in
use the constructor raises an address-in-use error and no server object
is produced. -/
def TCPServer.create (portInUse : Bool) : Except String Socket :=
  if portInUse then Except.error ("Address already in use")
  else Except.ok { closed := false }

/-- How the accept loop ends: a `KeyboardInterrupt` (an interrupt
signal), or some other exception. -/
inductive ServeEvent
  | interrupt
  | otherError (msg : String)

/-- Modelled from the spec: `serve_forever` (library code, not in src/)
runs the accept loop until an exception ends it; it never returns
normally, so its outcome is the exception that ended it. -/
def serve_forever (ev : ServeEvent) : Except ServeEvent Unit :=
  Except.error ev

/-- The shutdown message printed on interrupt (server.py line 39). -/
def shutdownMessage : String := "\n\n  Server stopped."

/-- The banner printed before serving (server.py lines 24-34); the box
border holds 58 box-drawing characters and the title line carries 25
trailing spaces of padding. -/
def bannerLines : List String :=
  [(""),
   ("╔") ++ String.mk (List.replicate 58 '═') ++ ("╗"),
   ("║     MDP Simulator Server Running") ++ String.mk (List.replicate 25 ' ') ++ ("║"),
   ("╚") ++ String.mk (List.replicate 58 '═') ++ ("╝"),
   (""),
   ("  🌐 Open your browser and navigate to:"),
   (""),
   ("     http://localhost:") ++ toString PORT,
   (""),
   ("  Press Ctrl+C to stop the server"),
   ("")]

/-- The `try: serve_forever ... except KeyboardInterrupt` block
(server.py lines 36-39): the strings it prints and its outcome
(`Except.error` means an exception escaped the block uncaught). -/
def tryServe (ev : ServeEvent) : List String × Except ServeEvent Unit :=
  match serve_forever ev with
  | Except.error ServeEvent.interrupt => ([shutdownMessage], Except.ok ())
  | Except.error e => ([], Except.error e)
  | Except.ok u => ([], Except.ok u)

/-- Outcome of running the `with` block and reaching the end of the
script. `exit = Except.ok ()` means the script ran off its end, giving
process exit status 0; `exit = Except.error e` means exception `e`
escaped, giving a nonzero exit. -/
structure RunOutcome where
  socket : Socket
  printed : List String
  exit : Except ServeEvent Unit

/-- The `with ... as httpd:` body (server.py lines 23-39): print the
banner, run the guarded accept loop, then (as the `with` statement's
unconditional cleanup) close the socket, propagating the body's
outcome. -/
def withServerBody (sock : Socket) (ev : ServeEvent) : RunOutcome :=
  { socket := server_close sock,
    printed := bannerLines ++ (tryServe ev).1,
    exit := (tryServe ev).2 }

/-- The serving part of the script (server.py lines 23-39): bind, and if
binding succeeds run the `with` block; a bind failure escapes as a fatal
startup error before anything is printed or served. -/
def mainRun (portInUse : Bool) (ev : ServeEvent) : Except String RunOutcome :=
  match TCPServer.create portInUse with
  | Except.error e => Except.error e
  | Except.ok sock => Except.ok (withServerBody sock ev)

/-- Modelled from the spec: `os.path.abspath` (library code, not in
src/): an already-absolute path is kept, a relative one is resolved
against the current working directory. -/
def abspath (cwd p : String) : String :=
  if p.startsWith ("/") then p else cwd ++ ("/") ++ p

/-- Modelled from the spec: `os.path.dirname` (library code, not in
src/): the part of the path before the final slash. -/
def dirname (p : String) : String :=
  String.intercalate ("/") (p.splitOn ("/")).dropLast

/-- The process environment and command line available at startup. -/
structure Env where
  vars : String → Option String
  argv : List String

/-- The server's network configuration. -/
structure Config where
  host : String
  port : Nat

/-- The configuration server.py builds (lines 11 and 23): the literal
constants `""` and `PORT`; the environment and command line are never
consulted. -/
def serverConfig (_ : Env) : Config :=
  { host := bindHost, port := PORT }

/-- The process state visible to the claims about the working directory:
the current working directory and the responses produced so far. -/
structure ProcState where
  cwd : String
  responses : List Response

/-- `os.chdir(os.path.dirname(os.path.abspath(__file__)))` (server.py
line 21), run once before the server is created: the working directory
becomes the directory containing the script. -/
def startup (cwd0 scriptPath : String) : ProcState :=
  { cwd := dirname (abspath cwd0 scriptPath), responses := [] }

/-- Handling one GET request during the serving phase: a response is
produced against the current working directory; nothing in server.py's
handler touches the working directory. -/
def handleStep (fs : FileSystem) (defaults : List Header)
    (st : ProcState) (relPath : String) : ProcState :=
  { st with responses := st.responses ++ [handleGET fs st.cwd defaults relPath] }

/-- The serving phase over a sequence of request paths. -/
def serveAll (fs : FileSystem) (defaults : List Header)
    (st : ProcState) : List String → ProcState
  | [] => st
  | p :: ps => serveAll fs defaults (handleStep fs defaults st p) ps

/-- Helper: the net effect of the overridden `end_headers` is to append
the three constant pairs to the buffered headers. -/
theorem end_headers_eq (buf : List Header) :
    end_headers buf = buf ++ corsHeaders := by
  simp [end_headers, base_end_headers, send_header, corsHeaders]

/-- Helper: `serveAll` never changes the working directory. -/
theorem serveAll_cwd (fs : FileSystem) (defaults : List Header) :
    ∀ (reqs : List String) (st : ProcState),
      (serveAll fs defaults st reqs).cwd = st.cwd := by
  intro reqs
  induction reqs with
  | nil => intro st; rfl
  | cons p ps ih =>
      intro st
      calc (serveAll fs defaults st (p :: ps)).cwd
          = (serveAll fs defaults (handleStep fs defaults st p) ps).cwd := rfl
        _ = (handleStep fs defaults st p).cwd := ih _
        _ = st.cwd := rfl

/-- A concrete filesystem used by witnesses: exactly one file,
`/srv/index.html`, with bytes `[104, 105]`. -/
def fsEx : FileSystem :=
  fun p => if p = ("/srv/index.html") then some [104, 105] else none

end Server

namespace Server

/-- C1: every response the server produces, whatever its status code,
has a header block containing all three fixed headers
`Access-Control-Allow-Origin: *`, `Cross-Origin-Embedder-Policy:
require-corp` and `Cross-Origin-Opener-Policy: same-origin`,
unconditionally and with no per-request variation. -/
theorem every_response_has_cors_headers (fs : FileSystem) (root : String)
    (defaults : List Header) (relPath : String) :
    (("Access-Control-Allow-Origin"), ("*")) ∈ (handleGET fs root defaults relPath).headers ∧
    (("Cross-Origin-Embedder-Policy"), ("require-corp")) ∈ (handleGET fs root defaults relPath).headers ∧
    (("Cross-Origin-Opener-Policy"), ("same-origin")) ∈ (handleGET fs root defaults relPath).headers := by
  refine ⟨?_, ?_, ?_⟩ <;>
    simp [handleGET, end_headers_eq, corsHeaders]

/-- C2: for every file F existing under the server's root, a GET request
for /F returns status 200 with a body byte-identical to F's contents. -/
theorem get_existing_file_200 (fs : FileSystem) (root relPath : String)
    (defaults : List Header) (bytes : List Nat)
    (h : fs (root ++ ("/") ++ relPath) = some bytes) :
    (handleGET fs root defaults relPath).status = 200 ∧
    (handleGET fs root defaults relPath).body = bytes := by
  constructor <;> simp [handleGET, serve_file, h]

/-- Witness for C2 at the concrete filesystem `fsEx`, root `/srv`,
path `index.html`. -/
theorem get_existing_file_200_witness :
    fsEx (("/srv") ++ ("/") ++ ("index.html")) = some [104, 105] ∧
    (handleGET fsEx ("/srv") [] ("index.html")).status = 200 ∧
    (handleGET fsEx ("/srv") [] ("index.html")).body = [104, 105] :=
  ⟨by decide,
   get_existing_file_200 fsEx ("/srv") ("index.html") [] [104, 105] (by decide)⟩

/-- C3: for every request path resolving to no existing file under the
server's root, a GET request returns status 404. -/
theorem get_missing_file_404 (fs : FileSystem) (root relPath : String)
    (defaults : List Header)
    (h : fs (root ++ ("/") ++ relPath) = none) :
    (handleGET fs root defaults relPath).status = 404 := by
  simp [handleGET, serve_file, h]

/-- Witness for C3 at the concrete filesystem `fsEx`, root `/srv`,
path `missing.html`. -/
theorem get_missing_file_404_witness :
    fsEx (("/srv") ++ ("/") ++ ("missing.html")) = none ∧
    (handleGET fsEx ("/srv") [] ("missing.html")).status = 404 :=
  ⟨by decide,
   get_missing_file_404 fsEx ("/srv") ("missing.html") [] (by decide)⟩

/-- C4: in every response's header block the three injected headers
appear after the library's own buffered default headers: the injection
appends to the end of the buffered header list. -/
theorem cors_headers_appended_after_defaults (fs : FileSystem)
    (root : String) (defaults : List Header) (relPath : String) :
    (handleGET fs root defaults relPath).headers = defaults ++ corsHeaders := by
  simp [handleGET, end_headers_eq]

/-- C5: when an interrupt signal arrives during the accept loop, the
loop terminates, the shutdown message is printed, and the script reaches
its end, exiting with status 0. -/
theorem interrupt_clean_exit (sock : Socket) :
    (withServerBody sock ServeEvent.interrupt).exit = Except.ok () ∧
    shutdownMessage ∈ (withServerBody sock ServeEvent.interrupt).printed := by
  constructor
  · rfl
  · simp [withServerBody, tryServe, serve_forever]

/-- C6: when the fixed TCP port is already in use at startup, binding
fails as a fatal, surfaced address-in-use error: the run produces no
serving outcome at all (no banner, no accept loop). -/
theorem bind_failure_is_fatal (ev : ServeEvent) :
    mainRun true ev = Except.error ("Address already in use") := rfl

/-- C7: the server's configuration is the constant pair host `""` (all
interfaces) and port 8000, identical for every environment and command
line (nothing is consulted), and startup maps the served root to the
directory containing the server's own entry point. -/
theorem fixed_config_port_8000 (e1 e2 : Env) (cwd0 scriptPath : String) :
    serverConfig e1 = serverConfig e2 ∧
    (serverConfig e1).port = 8000 ∧
    (serverConfig e1).host = ("") ∧
    (startup cwd0 scriptPath).cwd = dirname (abspath cwd0 scriptPath) :=
  ⟨rfl, rfl, rfl, rfl⟩

/-- C8: the working directory is set once at startup and no amount of
request handling changes it: after serving any sequence of requests the
working directory is still the one startup established. -/
theorem cwd_fixed_for_lifetime (fs : FileSystem) (defaults : List Header)
    (cwd0 scriptPath : String) (reqs : List String) :
    (serveAll fs defaults (startup cwd0 scriptPath) reqs).cwd =
      (startup cwd0 scriptPath).cwd :=
  serveAll_cwd fs defaults reqs (startup cwd0 scriptPath)

/-- C9: for any two requests, whatever headers the library buffered for
them, the header injection adds exactly the same suffix: the constant
three name/value pairs, independent of any request input. -/
theorem injection_constant_across_requests (b1 b2 : List Header) :
    (end_headers b1).drop b1.length = (end_headers b2).drop b2.length ∧
    (end_headers b1).drop b1.length = corsHeaders := by
  constructor <;> simp [end_headers_eq]

/-- C10: on every exit path of the serving phase, interrupt or any other
exception, the listening socket is closed, because the `with`
statement's cleanup runs unconditionally. -/
theorem socket_closed_on_every_exit (sock : Socket) (ev : ServeEvent) :
    (withServerBody sock ev).socket.closed = true := rfl

end Server
